import Mathlib

/-!
Verification of the go-xvid C glue layer (src/goxvid.c, src/goxvid.h).

The layer has three parts:
1. a constant bridge re-declaring three native bit-flag constants with an
   explicit unsigned 32-bit type,
2. two extractors (`vop_data`, `vol_data`) copying one arm of the decoder
   statistics union into a flat record,
3. a callback trampoline (`pluginCallback_cgo`) forwarding a native plugin
   callback to the host-side dispatcher `pluginCallback`.

Machine integers: a C `int` is embedded as `Int` (field copies are value
copies, so no wrap-around arises in this code), a C pointer as a `Nat`
address with `0` for the null pointer, and an `unsigned int` as a `Nat`
reduced modulo `2 ^ 32`.

The native union inside `xvid_dec_stats_t` is embedded as a product of both
arms: the arm not written by the decoder holds arbitrary values, which is how
a wrong-arm read shows up as unspecified (garbage) data while staying a total
function, matching the no-tag-check behaviour of the C code.
-/

namespace GoXvid

/-- Decoder-owned memory holding `int` buffers such as the quantizer-scale
array: a map from word addresses to `int` values. Address `0` plays the role
of the C null pointer. -/
def Heap : Type := Nat → Int

/-- The `vop` (frame) arm of the native statistics union, with exactly the
fields goxvid.c reads from it: `stats->data.vop.general`, `.time_base`,
`.time_increment`, `.qscale` (a pointer, embedded as an address) and
`.qscale_stride`. -/
structure stats_vop where
  general : Int
  time_base : Int
  time_increment : Int
  qscale : Nat
  qscale_stride : Int
deriving Repr, DecidableEq

/-- The `vol` (stream) arm of the native statistics union, with exactly the
fields goxvid.c reads from it: `stats->data.vol.general`, `.width`,
`.height`, `.par`, `.par_width` and `.par_height`. -/
structure stats_vol where
  general : Int
  width : Int
  height : Int
  par : Int
  par_width : Int
  par_height : Int
deriving Repr, DecidableEq

/-- The `data` union of the native statistics blob, embedded as a product of
its two arms (see the file header for why a product is faithful here). -/
structure stats_data where
  vop : stats_vop
  vol : stats_vol
deriving Repr, DecidableEq

/-- Modelled from the spec: the native header xvid.h is not under src/, so
the parts of `xvid_dec_stats_t` that goxvid.c does not touch are taken from
the spec, which describes the blob as an externally-owned tagged union with a
frame arm and a stream arm whose tag is established by the decoder. The
`data` field and the names of its arms are exactly those dereferenced by
goxvid.c; `version` and `type` (the union tag) are the remaining scalar
fields of the native structure. -/
structure xvid_dec_stats_t where
  version : Int
  type : Int
  data : stats_data
deriving Repr, DecidableEq

/-- The frame record `vop_t` of goxvid.h: `general`, `time_base`,
`time_increment`, a borrowed `qscale` pointer (embedded as an address) and
`qscale_stride`. -/
structure vop_t where
  general : Int
  time_base : Int
  time_increment : Int
  qscale : Nat
  qscale_stride : Int
deriving Repr, DecidableEq

/-- The stream record `vol_t` of goxvid.h: six scalar fields, no pointer. -/
structure vol_t where
  general : Int
  width : Int
  height : Int
  par : Int
  par_width : Int
  par_height : Int
deriving Repr, DecidableEq

/-- `vop_data` from goxvid.c: builds a `vop_t` from the five fields of the
`vop` arm of the blob, copying each field (the `qscale` pointer is copied as
a plain value). No other field of the blob is read and no tag is checked. -/
def vop_data (stats : xvid_dec_stats_t) : vop_t :=
  { general := stats.data.vop.general
    time_base := stats.data.vop.time_base
    time_increment := stats.data.vop.time_increment
    qscale := stats.data.vop.qscale
    qscale_stride := stats.data.vop.qscale_stride }

/-- `vol_data` from goxvid.c: builds a `vol_t` from the six fields of the
`vol` arm of the blob, copying each field. No other field of the blob is
read and no tag is checked. -/
def vol_data (stats : xvid_dec_stats_t) : vol_t :=
  { general := stats.data.vol.general
    width := stats.data.vol.width
    height := stats.data.vol.height
    par := stats.data.vol.par
    par_width := stats.data.vol.par_width
    par_height := stats.data.vol.par_height }

/-- Operational form of `vop_data`: the call receives the blob and the
decoder-owned memory and returns the record together with the blob and the
memory after the call. The C body of `vop_data` consists of five field reads
and no store, so the final blob and memory are the initial ones, and the
record is built without consulting the memory. -/
def vop_data_run (stats : xvid_dec_stats_t) (mem : Heap) :
    vop_t × xvid_dec_stats_t × Heap :=
  (vop_data stats, stats, mem)

/-- Operational form of `vol_data`: six field reads, no store (see
`vop_data_run`). -/
def vol_data_run (stats : xvid_dec_stats_t) (mem : Heap) :
    vol_t × xvid_dec_stats_t × Heap :=
  (vol_data stats, stats, mem)

/-- Modelled from the spec: xvid.h (the native header) is not under src/.
The comment in goxvid.h and the spec state that the bridged flags have the
native literal value `1 <<< 31`, the 32-bit word with only the sign bit set;
converted to the C `unsigned int` of the bridge declarations this is the bit
pattern `2 ^ 31`. -/
def XVID_CPU_FORCE : Nat := (1 <<< 31) % 2 ^ 32

/-- Modelled from the spec: see `XVID_CPU_FORCE`. -/
def XVID_DEBUG_DEBUG : Nat := (1 <<< 31) % 2 ^ 32

/-- Modelled from the spec: see `XVID_CPU_FORCE`. -/
def XVID_CSP_VFLIP : Nat := (1 <<< 31) % 2 ^ 32

/-- `const unsigned int CPU_FORCE = XVID_CPU_FORCE;` from goxvid.c: the
native value converted to `unsigned int`, i.e. reduced modulo `2 ^ 32`. -/
def CPU_FORCE : Nat := XVID_CPU_FORCE % 2 ^ 32

/-- `const unsigned int DEBUG_DEBUG = XVID_DEBUG_DEBUG;` from goxvid.c. -/
def DEBUG_DEBUG : Nat := XVID_DEBUG_DEBUG % 2 ^ 32

/-- `const unsigned int CSP_VFLIP = XVID_CSP_VFLIP;` from goxvid.c. -/
def CSP_VFLIP : Nat := XVID_CSP_VFLIP % 2 ^ 32

/-- A host handler: takes the opaque handle (an address), the option code,
the two opaque parameter addresses and a handler state, and returns the
integer result together with the next state. The state lets handler side
effects, in particular the number and order of calls, be observed. -/
def Handler (σ : Type) : Type := Nat → Int → Nat → Nat → σ → Int × σ

/-- Modelled from the spec: the host-side dispatcher `pluginCallback` is Go
code of this repository that is not under src/ (goxvid.c only declares and
calls it). Per the spec it locates the single registered host handler and
invokes it with the four inputs unchanged and in order, returning exactly the
integer the handler returns; when no handler is registered it fails loudly
(abort), embedded as the `none` result, rather than returning a fabricated
code. -/
def pluginCallback {σ : Type} (registered : Option (Handler σ))
    (handle : Nat) (opt : Int) (param1 param2 : Nat) (s : σ) :
    Option (Int × σ) :=
  match registered with
  | some H => some (H handle opt param1 param2 s)
  | none => none

/-- `pluginCallback_cgo` from goxvid.c: forwards its four arguments, in
order and unchanged, to `pluginCallback` and returns its result. The body
contains no memory access, so the embedding takes no `Heap`. -/
def pluginCallback_cgo {σ : Type} (registered : Option (Handler σ))
    (handle : Nat) (opt : Int) (param1 param2 : Nat) (s : σ) :
    Option (Int × σ) :=
  pluginCallback registered handle opt param1 param2 s

/-- One recorded handler invocation: the four arguments as received. -/
structure CallRecord where
  handle : Nat
  opt : Int
  param1 : Nat
  param2 : Nat
deriving Repr, DecidableEq

/-- Wraps a pure handler body so that every invocation appends one
`CallRecord` with the received arguments to a trace. -/
def instrument (h : Nat → Int → Nat → Nat → Int) : Handler (List CallRecord) :=
  fun handle opt p1 p2 trace =>
    (h handle opt p1 p2, trace ++ [{ handle := handle, opt := opt, param1 := p1, param2 := p2 }])

/-- A concrete statistics blob used by witnesses. -/
def sampleStatsA : xvid_dec_stats_t :=
  { version := 1, type := 5
    data :=
      { vop := { general := 7, time_base := 8, time_increment := 9, qscale := 100, qscale_stride := 2 }
        vol := { general := 3, width := 640, height := 480, par := 1, par_width := 4, par_height := 3 } } }

/-- A blob with the same `vol` arm as `sampleStatsA` but a different tag,
version and `vop` arm. -/
def sampleStatsB : xvid_dec_stats_t :=
  { version := 2, type := -1
    data :=
      { vop := { general := 70, time_base := 80, time_increment := 90, qscale := 200, qscale_stride := 5 }
        vol := { general := 3, width := 640, height := 480, par := 1, par_width := 4, par_height := 3 } } }

/-- A blob with the same `vop` arm as `sampleStatsD` but a different tag,
version and `vol` arm. -/
def sampleStatsC : xvid_dec_stats_t :=
  { version := 9, type := 0
    data :=
      { vop := { general := 7, time_base := 8, time_increment := 9, qscale := 100, qscale_stride := 2 }
        vol := { general := 99, width := 1, height := 2, par := 3, par_width := 4, par_height := 5 } } }

/-- See `sampleStatsC`. -/
def sampleStatsD : xvid_dec_stats_t :=
  { version := 4, type := 2
    data :=
      { vop := { general := 7, time_base := 8, time_increment := 9, qscale := 100, qscale_stride := 2 }
        vol := { general := 0, width := 0, height := 0, par := 0, par_width := 0, par_height := 0 } } }

/-- A blob whose `qscale` pointer is null (address 0). -/
def nullStats : xvid_dec_stats_t :=
  { version := 1, type := 3
    data :=
      { vop := { general := 3, time_base := 25, time_increment := 1, qscale := 0, qscale_stride := 11 }
        vol := { general := 0, width := 0, height := 0, par := 0, par_width := 0, par_height := 0 } } }

/-- The all-zero memory. -/
def memZero : Heap := fun _ => 0

/-- The all-one memory. -/
def memOne : Heap := fun _ => 1

/-- C1: for every blob, the frame record returned by `vop_data` has
`general`, `time_base`, `time_increment` and `qscale_stride` equal
bit-for-bit to the fields of the blob's `vop` arm, and its `qscale` field is
the very same address as the blob's `qscale` pointer, so in every memory the
two addresses denote the same element sequence; no other transformation is
applied. -/
theorem vop_data_extracts_fields (s : xvid_dec_stats_t) :
    (vop_data s).general = s.data.vop.general ∧
    (vop_data s).time_base = s.data.vop.time_base ∧
    (vop_data s).time_increment = s.data.vop.time_increment ∧
    (vop_data s).qscale_stride = s.data.vop.qscale_stride ∧
    (vop_data s).qscale = s.data.vop.qscale ∧
    ∀ mem : Heap, ∀ i : Nat,
      mem ((vop_data s).qscale + i) = mem (s.data.vop.qscale + i) :=
  ⟨rfl, rfl, rfl, rfl, rfl, fun _ _ => rfl⟩

/-- C2: for every blob, the stream record returned by `vol_data` has all six
fields equal bit-for-bit to the fields of the blob's `vol` arm, and the
record is exactly the structure built from those six scalar values, so it
holds no borrowed reference and is fully self-contained. -/
theorem vol_data_extracts_fields (s : xvid_dec_stats_t) :
    (vol_data s).general = s.data.vol.general ∧
    (vol_data s).width = s.data.vol.width ∧
    (vol_data s).height = s.data.vol.height ∧
    (vol_data s).par = s.data.vol.par ∧
    (vol_data s).par_width = s.data.vol.par_width ∧
    (vol_data s).par_height = s.data.vol.par_height ∧
    vol_data s = { general := s.data.vol.general, width := s.data.vol.width,
                   height := s.data.vol.height, par := s.data.vol.par,
                   par_width := s.data.vol.par_width,
                   par_height := s.data.vol.par_height } :=
  ⟨rfl, rfl, rfl, rfl, rfl, rfl, rfl⟩

/-- C3: for every registered handler body `h` and all four arguments, one
call of the trampoline `pluginCallback_cgo` extends the call trace by exactly
one record holding the four arguments unchanged and in order, and returns
exactly the integer `h` returns. -/
theorem pluginCallback_cgo_pass_through (h : Nat → Int → Nat → Nat → Int)
    (handle : Nat) (opt : Int) (p1 p2 : Nat) (trace : List CallRecord) :
    pluginCallback_cgo (some (instrument h)) handle opt p1 p2 trace =
      some (h handle opt p1 p2,
            trace ++ [{ handle := handle, opt := opt, param1 := p1, param2 := p2 }]) :=
  rfl

/-- C4: each of the three bridged constants is an unsigned 32-bit value
(below `2 ^ 32`) equal bit-for-bit to the native literal; the value with
only the 32-bit sign bit set reads as the large positive value `2 ^ 31`,
never as a negative number and with no overflow. -/
theorem bridged_constants_exact :
    CPU_FORCE = XVID_CPU_FORCE ∧
    DEBUG_DEBUG = XVID_DEBUG_DEBUG ∧
    CSP_VFLIP = XVID_CSP_VFLIP ∧
    CPU_FORCE = 2 ^ 31 ∧ DEBUG_DEBUG = 2 ^ 31 ∧ CSP_VFLIP = 2 ^ 31 ∧
    CPU_FORCE < 2 ^ 32 ∧ DEBUG_DEBUG < 2 ^ 32 ∧ CSP_VFLIP < 2 ^ 32 ∧
    0 < CPU_FORCE ∧ 0 < DEBUG_DEBUG ∧ 0 < CSP_VFLIP := by
  decide

/-- C5: neither extractor checks the union tag or signals an error: for any
blob, replacing the tag (and version) by arbitrary values leaves both
results unchanged, and the extractors unconditionally return the record read
from their own arm, even when the tag says the blob holds the other arm's
data — a wrong-arm call yields whatever values that arm holds, never a
fault. -/
theorem extractors_no_tag_check (s : xvid_dec_stats_t) (t v : Int) :
    vop_data { s with type := t, version := v } = vop_data s ∧
    vol_data { s with type := t, version := v } = vol_data s ∧
    vop_data s = { general := s.data.vop.general, time_base := s.data.vop.time_base,
                   time_increment := s.data.vop.time_increment,
                   qscale := s.data.vop.qscale,
                   qscale_stride := s.data.vop.qscale_stride } ∧
    vol_data s = { general := s.data.vol.general, width := s.data.vol.width,
                   height := s.data.vol.height, par := s.data.vol.par,
                   par_width := s.data.vol.par_width,
                   par_height := s.data.vol.par_height } :=
  ⟨rfl, rfl, rfl, rfl⟩

/-- C6: a trampoline call with no registered handler yields the abort result
`none`, a detectable outcome distinct from every `some` return code, so the
event is neither dropped silently nor answered with a fabricated success
code. -/
theorem trampoline_unregistered_aborts {σ : Type} (handle : Nat) (opt : Int)
    (p1 p2 : Nat) (s : σ) :
    pluginCallback_cgo (none : Option (Handler σ)) handle opt p1 p2 s = none :=
  rfl

/-- C7: extraction is pure and read-only: the blob (all of its fields) and
the decoder memory (hence the quantizer buffer) after a call are the initial
ones, for both extractors, and two calls on blobs whose contents are equal
field by field return equal records. -/
theorem extractors_read_only (s₁ s₂ : xvid_dec_stats_t) (mem : Heap)
    (hv : s₁.version = s₂.version) (ht : s₁.type = s₂.type)
    (hd : s₁.data = s₂.data) :
    (vop_data_run s₁ mem).2.1 = s₁ ∧ (vop_data_run s₁ mem).2.2 = mem ∧
    (vol_data_run s₁ mem).2.1 = s₁ ∧ (vol_data_run s₁ mem).2.2 = mem ∧
    vop_data s₁ = vop_data s₂ ∧ vol_data s₁ = vol_data s₂ := by
  have hs : s₁ = s₂ := by
    cases s₁
    cases s₂
    simp_all
  exact ⟨rfl, rfl, rfl, rfl, by rw [hs], by rw [hs]⟩

/-- Witness for C7 at a concrete blob and memory. -/
theorem extractors_read_only_witness :
    (vop_data_run sampleStatsA memZero).2.1 = sampleStatsA ∧
    (vop_data_run sampleStatsA memZero).2.2 = memZero ∧
    (vol_data_run sampleStatsA memZero).2.1 = sampleStatsA ∧
    (vol_data_run sampleStatsA memZero).2.2 = memZero ∧
    vop_data sampleStatsA = vop_data sampleStatsA ∧
    vol_data sampleStatsA = vol_data sampleStatsA :=
  extractors_read_only sampleStatsA sampleStatsA memZero rfl rfl rfl

/-- C8: the trampoline forwards `param1` and `param2` as opaque address
values — its body performs no memory access at all, so they are never
dereferenced — and a call with both parameters null (address 0) is
well-defined, returning exactly what the handler returns on those null
arguments. -/
theorem trampoline_opaque_params {σ : Type} (H : Handler σ) (handle : Nat)
    (opt : Int) (p1 p2 : Nat) (s : σ) :
    pluginCallback_cgo (some H) handle opt p1 p2 s = some (H handle opt p1 p2 s) ∧
    pluginCallback_cgo (some H) handle opt 0 0 s = some (H handle opt 0 0 s) :=
  ⟨rfl, rfl⟩

/-- C9: the result of `vol_data` depends only on the six fields of the `vol`
arm, and the result of `vop_data` only on the five fields of the `vop` arm:
blobs agreeing on those fields give equal records, whatever the tag, the
version and the other arm hold. -/
theorem extractors_depend_only_on_own_arm (s₁ s₂ s₃ s₄ : xvid_dec_stats_t)
    (h1 : s₁.data.vol.general = s₂.data.vol.general)
    (h2 : s₁.data.vol.width = s₂.data.vol.width)
    (h3 : s₁.data.vol.height = s₂.data.vol.height)
    (h4 : s₁.data.vol.par = s₂.data.vol.par)
    (h5 : s₁.data.vol.par_width = s₂.data.vol.par_width)
    (h6 : s₁.data.vol.par_height = s₂.data.vol.par_height)
    (g1 : s₃.data.vop.general = s₄.data.vop.general)
    (g2 : s₃.data.vop.time_base = s₄.data.vop.time_base)
    (g3 : s₃.data.vop.time_increment = s₄.data.vop.time_increment)
    (g4 : s₃.data.vop.qscale = s₄.data.vop.qscale)
    (g5 : s₃.data.vop.qscale_stride = s₄.data.vop.qscale_stride) :
    vol_data s₁ = vol_data s₂ ∧ vop_data s₃ = vop_data s₄ := by
  constructor
  · simp [vol_data, h1, h2, h3, h4, h5, h6]
  · simp [vop_data, g1, g2, g3, g4, g5]

/-- Witness for C9: blobs differing in tag, version and the other union arm
but agreeing on the relevant arm yield equal records. -/
theorem extractors_depend_only_on_own_arm_witness :
    vol_data sampleStatsA = vol_data sampleStatsB ∧
    vop_data sampleStatsC = vop_data sampleStatsD :=
  extractors_depend_only_on_own_arm sampleStatsA sampleStatsB sampleStatsC sampleStatsD
    rfl rfl rfl rfl rfl rfl rfl rfl rfl rfl rfl

/-- C10: `vop_data` copies the `qscale` pointer as a plain address value,
its result never depends on the contents of decoder memory (no buffer
element is read), and on a blob whose `qscale` pointer is null it still
returns the full record, with `qscale` null. -/
theorem vop_data_qscale_value_copy (s : xvid_dec_stats_t) (mem₁ mem₂ : Heap) :
    (vop_data s).qscale = s.data.vop.qscale ∧
    (vop_data_run s mem₁).1 = (vop_data_run s mem₂).1 ∧
    (s.data.vop.qscale = 0 →
      vop_data s = { general := s.data.vop.general, time_base := s.data.vop.time_base,
                     time_increment := s.data.vop.time_increment, qscale := 0,
                     qscale_stride := s.data.vop.qscale_stride }) :=
  ⟨rfl, rfl, fun h => by simp [vop_data, h]⟩

/-- Witness for C10 at a blob with a null `qscale` pointer and two distinct
memories. -/
theorem vop_data_qscale_value_copy_witness :
    (vop_data nullStats).qscale = nullStats.data.vop.qscale ∧
    (vop_data_run nullStats memZero).1 = (vop_data_run nullStats memOne).1 ∧
    vop_data nullStats = { general := nullStats.data.vop.general,
                           time_base := nullStats.data.vop.time_base,
                           time_increment := nullStats.data.vop.time_increment,
                           qscale := 0,
                           qscale_stride := nullStats.data.vop.qscale_stride } :=
  ⟨(vop_data_qscale_value_copy nullStats memZero memOne).1,
   (vop_data_qscale_value_copy nullStats memZero memOne).2.1,
   (vop_data_qscale_value_copy nullStats memZero memOne).2.2 rfl⟩

end GoXvid
